import Mathlib

/-!
# Thecon-Hackathon: location filter, description fallback and map selector

A shallow embedding of these pieces of the application:

* `filteredLocations` and the filter controls (`toggleRatingFilter`,
  `clearFilters`) of `src/screens/ExploreScreen.js`,
* `enhanceDescription` and `generateVibe` of `src/api/ai.js`,
* `MapViewComponent` and the probe that runs when its module loads, of
  `src/components/MapViewComponent.js`,
* `handleReserve` and `handleGenerateVibe` of `src/screens/DetailsScreen.js`.

Conventions of the embedding.

* A JavaScript string is a Lean `String`; `String.prototype.includes` is
  occurrence as a contiguous block of characters.
* A JavaScript number read from the bundled JSON data is a finite double,
  hence a rational number; ratings, thresholds and coordinates are `ℚ`, and
  `>=` on them is the order of `ℚ`.
* `toLowerCase`, `toUpperCase` and `trim` of `String.prototype` are library
  functions that the repository calls but does not define; the definitions
  take them as a parameter, and `asciiLowerCase`, `asciiUpperCase` and
  `asciiTrim` instantiate them on concrete inputs.
* The two values `Math.random()` returns inside `enhanceDescription` are
  arguments; the library promises a value in `[0, 1)`.
* A function that can throw returns `Except`/`Option`; effects (`fetch`,
  `console.error`) are collected in a list in the order they happen.
-/

namespace Thecon

/-! ## Data model -/

/-- Geographic position of a location record (`coordinates` in the data). -/
structure Coordinates where
  latitude : ℚ
  longitude : ℚ
  deriving DecidableEq, Repr

/-- A location record as the screens read it.  `coordinates` is the only
field the data model declares optional; `none` stands for a record in which
the property is missing. -/
structure Location where
  id : String
  name : String
  address : String
  rating : ℚ
  short_description : String := ""
  image_url : String := ""
  coordinates : Option Coordinates := none
  deriving DecidableEq, Repr

/-! ## ExploreScreen: the filter -/

/-- The call `s.includes(q)` of JavaScript: does `q` occur in `s` as a
contiguous block?  Scans the start positions of `s` from left to right. -/
def includes (s q : String) : Bool :=
  s.data.tails.any (fun t => q.data.isPrefixOf t)

/-- The callback handed to `locations.filter` in `ExploreScreen`
(lines 81-87): `matchesSearch && matchesRating`. -/
def matchesLocation (toLowerCase : String → String) (searchQuery : String) (minRating : ℚ)
    (location : Location) : Bool :=
  let matchesSearch :=
    includes (toLowerCase location.name) (toLowerCase searchQuery) ||
    includes (toLowerCase location.address) (toLowerCase searchQuery)
  let matchesRating := decide (location.rating ≥ minRating)
  matchesSearch && matchesRating

/-- The value `filteredLocations` computed on every render of `ExploreScreen`. -/
def filteredLocations (toLowerCase : String → String) (locations : List Location)
    (searchQuery : String) (minRating : ℚ) : List Location :=
  locations.filter (matchesLocation toLowerCase searchQuery minRating)

/-- The flag `hasActiveFilters` of `ExploreScreen` (line 89). -/
def hasActiveFilters (trim : String → String) (searchQuery : String) (minRating : ℚ) : Bool :=
  decide ((trim searchQuery).length > 0) || decide (minRating > 0)

/-- Lower-casing of the letters `A`-`Z`, on which every implementation of
`toLowerCase` agrees; used to evaluate the filter on concrete records. -/
def asciiLowerCase (s : String) : String :=
  String.mk (s.data.map Char.toLower)

/-- Removal of leading and trailing blanks, used to evaluate
`hasActiveFilters` on concrete queries. -/
def asciiTrim (s : String) : String :=
  String.mk (((s.data.dropWhile Char.isWhitespace).reverse.dropWhile Char.isWhitespace).reverse)

/-- The matching rule in the words of the specification: the rating reaches
the threshold, and the query is empty or occurs, case-insensitively, in the
name or in the address. -/
def specMatches (toLowerCase : String → String) (q : String) (r : ℚ) (l : Location) : Prop :=
  r ≤ l.rating ∧
    (q = "" ∨ (toLowerCase q).data <:+: (toLowerCase l.name).data ∨
      (toLowerCase q).data <:+: (toLowerCase l.address).data)

/-- The text criterion alone, in the words of the specification. -/
def specTextMatches (toLowerCase : String → String) (q : String) (l : Location) : Prop :=
  (toLowerCase q).data <:+: (toLowerCase l.name).data ∨
    (toLowerCase q).data <:+: (toLowerCase l.address).data

instance specMatchesDecidable (toLowerCase : String → String) (q : String) (r : ℚ)
    (l : Location) : Decidable (specMatches toLowerCase q r l) := by
  unfold specMatches
  infer_instance

instance specTextMatchesDecidable (toLowerCase : String → String) (q : String)
    (l : Location) : Decidable (specTextMatches toLowerCase q l) := by
  unfold specTextMatches
  infer_instance

/-- The stable filter of the specification: the records of `L` that satisfy
`specMatches`, in the order of `L`. -/
def specFilter (toLowerCase : String → String) (L : List Location) (q : String) (r : ℚ) :
    List Location :=
  L.filter (fun l => decide (specMatches toLowerCase q r l))

/-- The records of `L` whose rating reaches `r`, in the order of `L`. -/
def ratingAtLeast (L : List Location) (r : ℚ) : List Location :=
  L.filter (fun l => decide (l.rating ≥ r))

/-- The records of `L` that satisfy the text criterion, in the order of `L`. -/
def textMatching (toLowerCase : String → String) (L : List Location) (q : String) :
    List Location :=
  L.filter (fun l => decide (specTextMatches toLowerCase q l))

/-- First record of the scenario of the specification. -/
def cafeCentral : Location :=
  { id := "1", name := "Cafe Central", address := "Main St", rating := 42 / 10 }

/-- Second record of the scenario of the specification. -/
def libraryBar : Location :=
  { id := "2", name := "Library Bar", address := "Side St", rating := 38 / 10 }

/-- The record Cafe Central with a rating below zero, outside the range the
data model observes. -/
def cafeBelowZero : Location :=
  { cafeCentral with rating := -1 }

/-! ## api/ai.js: the local fallback -/

/-- The array `enhancements` of `enhanceDescription`. -/
def enhancements : List String :=
  ["✨ ", "🎓 Perfect pentru studenți! ", "🌟 ", "💫 "]

/-- The array `vibeWords` of `enhanceDescription`. -/
def vibeWords : List String :=
  ["vibe-ul", "atmosfera", "energia", "experiența"]

/-- The fixed tail of the template string of `enhanceDescription`. -/
def vibeSuffix : String :=
  " de aici este incredibilă! 🚀"

/-- Array read `xs[i]` of JavaScript at an integer index: `none` is
`undefined`, the value of a read outside the array. -/
def arrayAt (xs : List String) (i : ℤ) : Option String :=
  if 0 ≤ i then xs[i.toNat]? else none

/-- The index `Math.floor(Math.random() * xs.length)`, where `random` is the
value returned by `Math.random()`.  The product with the length 4 is exact on
doubles, so the rational product is the value JavaScript computes. -/
def randomIndex (random : ℚ) (xs : List String) : ℤ :=
  ⌊random * (xs.length : ℚ)⌋

/-- The call `s.charAt(0)`: the first character as a string, or the empty string. -/
def charAt0 (s : String) : String :=
  String.mk (s.data.take 1)

/-- The call `s.slice(1)`: the string without its first character. -/
def slice1 (s : String) : String :=
  String.mk (s.data.drop 1)

/-- How a template string renders an interpolated array read: `undefined`
becomes the text "undefined". -/
def interpolate (v : Option String) : String :=
  v.getD "undefined"

/-- The function `enhanceDescription` of `src/api/ai.js` (lines 58-71).
`random1` and `random2` are the values of its two calls of `Math.random()`
and `toUpperCase` is the library function it calls.  The result is `none`
when the function throws, which happens when `randomVibe` is `undefined`
(`randomVibe.charAt` is then a `TypeError`). -/
def enhanceDescription (toUpperCase : String → String) (random1 random2 : ℚ)
    (description : String) : Option String :=
  let randomEnhancement := arrayAt enhancements (randomIndex random1 enhancements)
  let randomVibe := arrayAt vibeWords (randomIndex random2 vibeWords)
  match randomVibe with
  | none => none
  | some vibe =>
    some (interpolate randomEnhancement ++ description ++ " " ++
      (toUpperCase (charAt0 vibe) ++ slice1 vibe) ++ vibeSuffix)

/-- Upper-casing of the letters `a`-`z`, on which every implementation of
`toUpperCase` agrees; the four words of `vibeWords` start with such a
letter. -/
def asciiUpperCase (s : String) : String :=
  String.mk (s.data.map Char.toUpper)

/-! ## api/ai.js: the remote call -/

/-- A value produced by `JSON.parse`, as `response.json()` resolves to.  An
object is the list of its own properties. -/
inductive Json where
  | null : Json
  | bool (b : Bool) : Json
  | num (n : ℚ) : Json
  | str (s : String) : Json
  | arr (items : List Json) : Json
  | obj (props : List (String × Json)) : Json

/-- The own property `key` of an object given by its property list. -/
def lookupProp (key : String) : List (String × Json) → Option Json
  | [] => none
  | (k, v) :: rest => if k = key then some v else lookupProp key rest

/-- Property read `v.key` for the keys `choices`, `message` and `content`,
which no prototype defines: `Except.error ()` is the `TypeError` of a read on
`undefined` or `null`, `Except.ok none` is the value `undefined`. -/
def getProp (v : Option Json) (key : String) : Except Unit (Option Json) :=
  match v with
  | none => Except.error ()
  | some Json.null => Except.error ()
  | some (Json.obj props) => Except.ok (lookupProp key props)
  | some _ => Except.ok none

/-- Indexed read `v[0]`: the first element of an array, the property `0` of
an object, the first character of a string, `undefined` on a number or a
boolean, and a `TypeError` on `undefined` or `null`. -/
def getIndex0 (v : Option Json) : Except Unit (Option Json) :=
  match v with
  | none => Except.error ()
  | some Json.null => Except.error ()
  | some (Json.arr items) => Except.ok items.head?
  | some (Json.obj props) => Except.ok (lookupProp "0" props)
  | some (Json.str s) =>
    Except.ok (if s.data = [] then none else some (Json.str (String.mk (s.data.take 1))))
  | some _ => Except.ok none

/-- Method call `v.trim()`: defined on strings only; every other value has
no callable `trim` and the call is a `TypeError`. -/
def callTrim (trim : String → String) (v : Option Json) : Except Unit String :=
  match v with
  | some (Json.str s) => Except.ok (trim s)
  | _ => Except.error ()

/-- The expression `data.choices[0].message.content.trim()` of `generateVibe`
(line 47), evaluated left to right. -/
def remoteContent (trim : String → String) (data : Json) : Except Unit String := do
  let choices ← getProp (some data) "choices"
  let first ← getIndex0 choices
  let message ← getProp first "message"
  let content ← getProp message "content"
  callTrim trim content

/-- The argument of the one `fetch` call of `generateVibe`: the address, the
`Authorization` header and the text of the user message. -/
structure Request where
  url : String
  authorization : String
  userContent : String
  deriving DecidableEq, Repr

/-- What the remote call does: `fetch` rejects, or it resolves to a response
with its `ok` flag and the outcome of `response.json()`, where `none` is a
rejection (the body is not JSON). -/
inductive FetchResult where
  | rejected : FetchResult
  | response (ok : Bool) (json : Option Json) : FetchResult

/-- An effect of `generateVibe` that is visible outside it. -/
inductive Effect where
  | fetch (request : Request) : Effect
  | consoleError : Effect
  deriving DecidableEq, Repr

/-- Everything `generateVibe` reads from its host: the environment variable
`EXPO_PUBLIC_OPENAI_API_KEY` (`none` when it is not set), the behaviour of
`fetch`, the two values `Math.random()` returns inside the fallback, and the
library functions `toUpperCase` and `trim`. -/
structure Host where
  apiKey : Option String
  fetch : Request → FetchResult
  random1 : ℚ
  random2 : ℚ
  toUpperCase : String → String
  trim : String → String

/-- The outcome of a call of `generateVibe`: the value its promise resolves
to (`none` when the promise rejects) and the effects in the order they
happened. -/
structure VibeRun where
  value : Option String
  effects : List Effect
  deriving DecidableEq, Repr

/-- The test `!apiKey`: true when the variable is not set or is empty. -/
def isFalsy (apiKey : Option String) : Bool :=
  match apiKey with
  | none => true
  | some key => decide (key = "")

/-- The request `generateVibe` sends (lines 19-40). -/
def vibeRequest (key description : String) : Request :=
  { url := "https://api.openai.com/v1/chat/completions"
    authorization := "Bearer " ++ key
    userContent :=
      "Recrează următoarea descriere într-un mod mai creativ și atractiv pentru studenți: " ++
        description }

/-- The `catch` block of `generateVibe` (lines 48-52), entered after the
effects `sofar`: it logs the error and returns the local fallback. -/
def vibeCatch (host : Host) (description : String) (sofar : List Effect) : VibeRun :=
  { value := enhanceDescription host.toUpperCase host.random1 host.random2 description
    effects := sofar ++ [Effect.consoleError] }

/-- The function `generateVibe` of `src/api/ai.js` (lines 6-53). -/
def generateVibe (host : Host) (description : String) : VibeRun :=
  if isFalsy host.apiKey then
    { value := enhanceDescription host.toUpperCase host.random1 host.random2 description
      effects := [] }
  else
    let request := vibeRequest (host.apiKey.getD "") description
    match host.fetch request with
    | FetchResult.rejected => vibeCatch host description [Effect.fetch request]
    | FetchResult.response ok json =>
      if !ok then vibeCatch host description [Effect.fetch request]
      else
        match json with
        | none => vibeCatch host description [Effect.fetch request]
        | some data =>
          match remoteContent host.trim data with
          | Except.error _ => vibeCatch host description [Effect.fetch request]
          | Except.ok text => { value := some text, effects := [Effect.fetch request] }

/-- The local fallback for the host: `enhanceDescription` with the two
random values of the host. -/
def fallbackOf (host : Host) (description : String) : Option String :=
  enhanceDescription host.toUpperCase host.random1 host.random2 description

/-- The number of `fetch` calls among the effects. -/
def fetchCount (effects : List Effect) : Nat :=
  (effects.filter (fun e => match e with | Effect.fetch _ => true | _ => false)).length

/-- The member `key` of a JSON value, in the words of the specification:
present only on an object that has it. -/
def Json.field (key : String) : Json → Option Json
  | Json.obj props => lookupProp key props
  | _ => none

/-- The member `[0]` of a JSON value: the first element of an array, the
member `0` of an object, the first character of a non-empty string. -/
def Json.first : Json → Option Json
  | Json.arr items => items.head?
  | Json.obj props => lookupProp "0" props
  | Json.str s => if s.data = [] then none else some (Json.str (String.mk (s.data.take 1)))
  | _ => none

/-- The text a value holds when it is a string. -/
def textOf : Option Json → Option String
  | some (Json.str text) => some text
  | _ => none

/-- The text at `choices[0].message.content` of a body, when the body has
that path and a string sits there; `none` when the body lacks it. -/
def specContent (data : Json) : Option String :=
  textOf ((((data.field "choices").bind Json.first).bind (Json.field "message")).bind
    (Json.field "content"))

/-- A body of the shape the remote service documents:
`{"choices": [{"message": {"content": text}}]}`. -/
def chatBody (text : String) : Json :=
  Json.obj [("choices", Json.arr [Json.obj [("message", Json.obj [("content", Json.str text)])]])]

/-- A host without a key whose `fetch` would answer with `chatBody "remote"`. -/
def hostWithoutKey : Host :=
  { apiKey := none
    fetch := fun _ => FetchResult.response true (some (chatBody "remote"))
    random1 := 0
    random2 := 1 / 2
    toUpperCase := asciiUpperCase
    trim := asciiTrim }

/-- A host with a key whose `fetch` answers with `chatBody " remote text "`. -/
def hostWithKey : Host :=
  { hostWithoutKey with
    apiKey := some "sk-test"
    fetch := fun _ => FetchResult.response true (some (chatBody " remote text ")) }

/-- A host with a key whose `fetch` rejects. -/
def hostOffline : Host :=
  { hostWithKey with fetch := fun _ => FetchResult.rejected }

/-! ## components/MapViewComponent.js -/

/-- The prop `initialRegion` of the map. -/
structure Region where
  latitude : ℚ
  longitude : ℚ
  latitudeDelta : ℚ
  longitudeDelta : ℚ
  deriving DecidableEq, Repr

/-- One entry of the fallback list (lines 43-54): its key, the two texts it
shows and its press handler, which returns what `onMarkerPress` returns. -/
structure FallbackItem (β : Type) where
  key : String
  name : String
  address : String
  onPress : Unit → β

/-- One `Marker` element (lines 84-93) with its props. -/
structure MarkerView (β : Type) where
  key : String
  coordinate : Coordinates
  title : String
  description : String
  onPress : Unit → β

/-- What `MapViewComponent` returns: the fallback view with its notice and
list, the notice for an empty list, or the map with its markers. -/
inductive Rendered (β : Type) where
  | fallback (title text : String) (items : List (FallbackItem β)) : Rendered β
  | emptyMap (title text : String) : Rendered β
  | map (initialRegion : Region) (showsUserLocation showsMyLocationButton : Bool)
      (markers : List (MarkerView β)) : Rendered β

/-- The callback of `locations.map` in the fallback view (lines 42-55). -/
def fallbackItem {β : Type} (onMarkerPress : Location → β) (location : Location) :
    FallbackItem β :=
  { key := location.id
    name := location.name
    address := location.address
    onPress := fun _ => onMarkerPress location }

/-- The `Marker` element for a location whose `coordinates` are present
(lines 84-93). -/
def markerView {β : Type} (onMarkerPress : Location → β) (location : Location)
    (coordinates : Coordinates) : MarkerView β :=
  { key := location.id
    coordinate := { latitude := coordinates.latitude, longitude := coordinates.longitude }
    title := location.name
    description := location.address
    onPress := fun _ => onMarkerPress location }

/-- The callback of `locations.map` in the map view (lines 83-94).  It reads
`location.coordinates.latitude` and `.longitude`; on a record without
`coordinates` that read is a `TypeError`, here `Except.error ()`. -/
def marker {β : Type} (onMarkerPress : Location → β) (location : Location) :
    Except Unit (MarkerView β) :=
  match location.coordinates with
  | none => Except.error ()
  | some coordinates => Except.ok (markerView onMarkerPress location coordinates)

/-- The call `locations.map(...)` of the map view: the callback runs on the
records from left to right and the first exception ends the call. -/
def markers {β : Type} (onMarkerPress : Location → β) :
    List Location → Except Unit (List (MarkerView β))
  | [] => Except.ok []
  | location :: rest =>
    match marker onMarkerPress location with
    | Except.error e => Except.error e
    | Except.ok m =>
      match markers onMarkerPress rest with
      | Except.error e => Except.error e
      | Except.ok ms => Except.ok (m :: ms)

/-- The function `MapViewComponent` (lines 30-98).  `mapsAvailable` is the
module variable set once when the module loads.  The result is the element
the function returns, or `Except.error ()` when it throws. -/
def MapViewComponent {β : Type} (mapsAvailable : Bool) (locations : List Location)
    (onMarkerPress : Location → β) (initialRegion : Region) : Except Unit (Rendered β) :=
  if !mapsAvailable then
    Except.ok (Rendered.fallback "Hartă indisponibilă în Expo Go"
      "Pentru a folosi hărțile, construiește aplicația cu EAS Build"
      (locations.map (fallbackItem onMarkerPress)))
  else if mapsAvailable && decide (locations.length = 0) then
    Except.ok (Rendered.emptyMap "Nicio locație pentru filtrele curente"
      "Revino la vizualizarea listă pentru a ajusta căutarea sau filtrele.")
  else
    match markers onMarkerPress locations with
    | Except.error e => Except.error e
    | Except.ok ms => Except.ok (Rendered.map initialRegion true true ms)

/-- The markers a rendered view contains. -/
def Rendered.markerList {β : Type} : Rendered β → List (MarkerView β)
  | Rendered.map _ _ _ ms => ms
  | _ => []

/-- Whether the rendered view is the map. -/
def Rendered.showsMap {β : Type} : Rendered β → Bool
  | Rendered.map _ _ _ _ => true
  | _ => false

/-- The title of the notice for an empty list, when the view is that notice. -/
def Rendered.emptyNotice {β : Type} : Rendered β → Option String
  | Rendered.emptyMap title _ => some title
  | _ => none

/-- The default `initialRegion` of `ExploreScreen` (lines 25-30). -/
def defaultRegion : Region :=
  { latitude := 467712 / 10000, longitude := 236236 / 10000,
    latitudeDelta := 5 / 100, longitudeDelta := 5 / 100 }

/-- The record Library Bar with a position. -/
def libraryBarPlaced : Location :=
  { libraryBar with coordinates := some { latitude := 4677 / 100, longitude := 2359 / 100 } }

/-- The entries of the fallback list a rendered view contains. -/
def Rendered.fallbackItems {β : Type} : Rendered β → List (FallbackItem β)
  | Rendered.fallback _ _ items => items
  | _ => []

/-- What the fallback view puts on the screen: the title and text of the
notice and, for every entry, its key, name and address; `none` when the view
is not the fallback view. -/
def Rendered.fallbackDisplay {β : Type} :
    Rendered β → Option (String × String × List (String × String × String))
  | Rendered.fallback title text items =>
    some (title, text, items.map (fun i => (i.key, i.name, i.address)))
  | _ => none

/-- The three fields of a record that the fallback view shows. -/
def shownFields (l : Location) : String × String × String :=
  (l.id, l.name, l.address)

/-! ## components/MapViewComponent.js: the probe at module load -/

/-- The exports of `react-native-maps` that the probe reads.  A field is
`none` when the export is missing or falsy, otherwise it names the exported
component. -/
structure MapsModule where
  default : Option String
  MapView : Option String
  Marker : Option String
  deriving DecidableEq, Repr

/-- What `require('react-native-maps')` does: it throws, or it returns a
value, `none` standing for a falsy one. -/
inductive RequireOutcome where
  | throws : RequireOutcome
  | returns (maps : Option MapsModule) : RequireOutcome
  deriving DecidableEq, Repr

/-- The host of the module: whether `typeof require !== 'undefined'` holds
and what the call of `require` does. -/
structure ProbeHost where
  requireDefined : Bool
  require : RequireOutcome
  deriving DecidableEq, Repr

/-- The module variables `MapView`, `Marker` and `mapsAvailable`
(lines 6-7); `none` is `undefined`. -/
structure MapsState where
  MapView : Option String
  Marker : Option String
  mapsAvailable : Bool
  deriving DecidableEq, Repr

/-- The module variables after their declarations (lines 6-7). -/
def declaredMapsState : MapsState :=
  { MapView := none, Marker := none, mapsAvailable := false }

/-- The body of the `try` block (lines 12-20), run on the module variables
`s`; `Except.error ()` is an exception leaving the block. -/
def probeTry (host : ProbeHost) (s : MapsState) : Except Unit MapsState :=
  if host.requireDefined then
    match host.require with
    | RequireOutcome.throws => Except.error ()
    | RequireOutcome.returns none => Except.ok s
    | RequireOutcome.returns (some maps) =>
      if maps.default.isSome || maps.MapView.isSome then
        Except.ok
          { MapView := maps.default <|> maps.MapView
            Marker := maps.Marker
            mapsAvailable := true }
      else Except.ok s
  else Except.ok s

/-- The statements the module runs when it loads (lines 6-24): the
declarations, the `try` block and its `catch` block, which sets
`mapsAvailable = false`.  `Except.error ()` would be an exception that
escapes the module. -/
def probe (host : ProbeHost) : Except Unit MapsState :=
  match probeTry host declaredMapsState with
  | Except.ok s => Except.ok s
  | Except.error _ => Except.ok { declaredMapsState with mapsAvailable := false }

/-- One call of `MapViewComponent` with the module variables made explicit:
the variables after the call and what the call returns.  The function reads
`mapsAvailable` and assigns no module variable. -/
def renderCall {β : Type} (s : MapsState) (locations : List Location)
    (onMarkerPress : Location → β) (initialRegion : Region) :
    MapsState × Except Unit (Rendered β) :=
  (s, MapViewComponent s.mapsAvailable locations onMarkerPress initialRegion)

/-- The module variables after a series of calls of `MapViewComponent`, one
per entry of `calls`. -/
def renderCalls {β : Type} (onMarkerPress : Location → β) (s : MapsState)
    (calls : List (List Location × Region)) : MapsState :=
  calls.foldl (fun acc call => (renderCall acc call.1 onMarkerPress call.2).1) s

/-- A host in which `react-native-maps` is present with its usual exports. -/
def hostWithMaps : ProbeHost :=
  { requireDefined := true
    require := RequireOutcome.returns
      (some { default := some "MapView", MapView := none, Marker := some "Marker" }) }

/-- A host (Expo Go) in which requiring `react-native-maps` throws. -/
def hostExpoGo : ProbeHost :=
  { requireDefined := true, require := RequireOutcome.throws }

/-! ## screens/DetailsScreen.js -/

/-- The state of `DetailsScreen`: the two `useState` variables `description`
and `isGenerating`, and `inFlight`, the number of calls of `generateVibe`
that were started by `handleGenerateVibe` and have not settled yet.
`inFlight` is not a variable of the source; it counts the pending promises. -/
structure DetailsState where
  description : String
  isGenerating : Bool
  inFlight : Nat
  deriving DecidableEq, Repr

/-- The state of `DetailsScreen` when it mounts (lines 22-23). -/
def initialDetails (location : Location) : DetailsState :=
  { description := location.short_description, isGenerating := false, inFlight := 0 }

/-- How a promise settles. -/
inductive Settled (α : Type) where
  | resolved (value : α) : Settled α
  | rejected : Settled α
  deriving DecidableEq, Repr

/-- The module `Linking` as `handleReserve` uses it, and the library function
`encodeURIComponent`. -/
structure LinkingHost where
  canOpenURL : String → Settled Bool
  openURL : String → Settled Unit
  encodeURIComponent : String → String

/-- An effect of `handleReserve` that is visible outside it. -/
inductive ReserveEffect where
  | canOpenURL (url : String) : ReserveEffect
  | openURL (url : String) : ReserveEffect
  | alert (title message : String) : ReserveEffect
  | consoleError : ReserveEffect
  deriving DecidableEq, Repr

/-- The deep link `whatsappUrl` of `handleReserve` (lines 26-27). -/
def whatsappUrl (host : LinkingHost) (location : Location) : String :=
  "https://wa.me/?text=" ++ host.encodeURIComponent ("Rezervare pentru " ++ location.name)

/-- The `catch` callback of `handleReserve` (lines 37-40), entered after the
effects `sofar`. -/
def reserveCatch (sofar : List ReserveEffect) : List ReserveEffect :=
  sofar ++ [ReserveEffect.consoleError,
    ReserveEffect.alert "Eroare" "Nu s-a putut deschide WhatsApp."]

/-- The function `handleReserve` of `DetailsScreen` (lines 25-41) run to the
end of its promise chain: the screen state afterwards and the effects in the
order they happened.  The function calls no state setter. -/
def handleReserve (host : LinkingHost) (location : Location) (state : DetailsState) :
    DetailsState × List ReserveEffect :=
  let url := whatsappUrl host location
  match host.canOpenURL url with
  | Settled.rejected => (state, reserveCatch [ReserveEffect.canOpenURL url])
  | Settled.resolved supported =>
    if supported then
      match host.openURL url with
      | Settled.resolved _ => (state, [ReserveEffect.canOpenURL url, ReserveEffect.openURL url])
      | Settled.rejected =>
        (state, reserveCatch [ReserveEffect.canOpenURL url, ReserveEffect.openURL url])
    else
      (state, [ReserveEffect.canOpenURL url,
        ReserveEffect.alert "Eroare" "WhatsApp nu este instalat pe acest dispozitiv."])

/-- The number of calls of `Alert.alert` among the effects. -/
def alertCount (effects : List ReserveEffect) : Nat :=
  (effects.filter (fun e => match e with | ReserveEffect.alert _ _ => true | _ => false)).length

/-- The number of calls of `Linking.openURL` among the effects. -/
def openCount (effects : List ReserveEffect) : Nat :=
  (effects.filter (fun e => match e with | ReserveEffect.openURL _ => true | _ => false)).length

/-- A host on which WhatsApp is not installed. -/
def hostNoWhatsapp : LinkingHost :=
  { canOpenURL := fun _ => Settled.resolved false
    openURL := fun _ => Settled.resolved ()
    encodeURIComponent := fun s => s }

/-- What can happen on `DetailsScreen` around the vibe button: a press of the
button, and the settling of a pending call of `generateVibe`. -/
inductive DetailsEvent where
  | pressGenerate : DetailsEvent
  | requestCompletes (newDescription : String) : DetailsEvent
  | requestFails : DetailsEvent
  deriving DecidableEq, Repr

/-- One step of `DetailsScreen`.  A press runs `handleGenerateVibe` up to its
`await` (line 44 and the call of line 46) unless the button is disabled
(`disabled={isGenerating}`, line 95).  The settling of a pending call runs
the rest of `handleGenerateVibe`: `setDescription` after a success
(line 47), the `catch` block after a failure, and `setIsGenerating(false)` of
the `finally` block in both cases (line 52).  Without a pending call there
is nothing to settle. -/
def detailsStep (s : DetailsState) : DetailsEvent → DetailsState
  | DetailsEvent.pressGenerate =>
    if s.isGenerating then s
    else { s with isGenerating := true, inFlight := s.inFlight + 1 }
  | DetailsEvent.requestCompletes newDescription =>
    if s.inFlight = 0 then s
    else { description := newDescription, isGenerating := false, inFlight := s.inFlight - 1 }
  | DetailsEvent.requestFails =>
    if s.inFlight = 0 then s
    else { s with isGenerating := false, inFlight := s.inFlight - 1 }

/-- The state of `DetailsScreen` after a series of events. -/
def detailsRun (s : DetailsState) (events : List DetailsEvent) : DetailsState :=
  events.foldl detailsStep s

/-! ## screens/ExploreScreen.js: the filter controls -/

/-- The `useState` variables of `ExploreScreen` (lines 22-32). -/
structure ExploreState where
  viewMode : String
  locations : List Location
  loading : Bool
  initialRegion : Region
  searchQuery : String
  minRating : ℚ
  deriving DecidableEq, Repr

/-- The state of `ExploreScreen` when it mounts (lines 22-32). -/
def initialExplore : ExploreState :=
  { viewMode := "list", locations := [], loading := true, initialRegion := defaultRegion,
    searchQuery := "", minRating := 0 }

/-- The setter `setSearchQuery`. -/
def setSearchQuery (s : ExploreState) (query : String) : ExploreState :=
  { s with searchQuery := query }

/-- The setter `setViewMode`. -/
def setViewMode (s : ExploreState) (mode : String) : ExploreState :=
  { s with viewMode := mode }

/-- The function `toggleRatingFilter` (lines 72-74):
`setMinRating((prev) => (prev === 0 ? 4 : 0))`. -/
def toggleRatingFilter (s : ExploreState) : ExploreState :=
  { s with minRating := if s.minRating = 0 then 4 else 0 }

/-- The function `clearFilters` (lines 76-79). -/
def clearFilters (s : ExploreState) : ExploreState :=
  { s with searchQuery := "", minRating := 0 }

/-- An operation of the filter controls of `ExploreScreen`. -/
inductive ExploreOp where
  | setSearchQuery (query : String) : ExploreOp
  | toggleRatingFilter : ExploreOp
  | clearFilters : ExploreOp
  | setViewMode (mode : String) : ExploreOp
  deriving DecidableEq, Repr

/-- The state after one operation. -/
def applyOp (s : ExploreState) : ExploreOp → ExploreState
  | ExploreOp.setSearchQuery query => setSearchQuery s query
  | ExploreOp.toggleRatingFilter => toggleRatingFilter s
  | ExploreOp.clearFilters => clearFilters s
  | ExploreOp.setViewMode mode => setViewMode s mode

/-- The state after a series of operations. -/
def applyOps (s : ExploreState) (ops : List ExploreOp) : ExploreState :=
  ops.foldl applyOp s

/-- The value `filteredLocations` that `ExploreScreen` computes in the state
`s` (lines 81-87). -/
def filteredOf (toLowerCase : String → String) (s : ExploreState) : List Location :=
  filteredLocations toLowerCase s.locations s.searchQuery s.minRating

/-- The initial state once the two scenario records are loaded. -/
def loadedExplore : ExploreState :=
  { initialExplore with locations := [cafeCentral, libraryBar], loading := false }

/-! ## Lemmas on `includes` -/

theorem includes_iff (s q : String) : includes s q = true ↔ q.data <:+: s.data := by
  unfold includes
  rw [List.any_eq_true]
  constructor
  · rintro ⟨t, ht, hp⟩
    rw [List.mem_tails] at ht
    rw [List.isPrefixOf_iff_prefix] at hp
    exact hp.isInfix.trans ht.isInfix
  · intro h
    obtain ⟨t, hp, hs⟩ := List.infix_iff_prefix_suffix.mp h
    exact ⟨t, (List.mem_tails _ _).mpr hs, List.isPrefixOf_iff_prefix.mpr hp⟩

theorem includes_empty (s : String) : includes s "" = true := by
  rw [includes_iff]
  exact List.nil_infix

theorem matchesLocation_iff (toLowerCase : String → String) (q : String) (r : ℚ)
    (l : Location) :
    matchesLocation toLowerCase q r l = true ↔
      specTextMatches toLowerCase q l ∧ r ≤ l.rating := by
  simp only [matchesLocation, specTextMatches, Bool.and_eq_true, Bool.or_eq_true,
    decide_eq_true_eq, includes_iff, ge_iff_le]

theorem filter_eq_of_iff {α : Type} (p : α → Bool) (P : α → Prop) [DecidablePred P]
    (L : List α) (h : ∀ a ∈ L, p a = true ↔ P a) :
    L.filter p = L.filter (fun a => decide (P a)) := by
  apply List.filter_congr
  intro a ha
  by_cases hP : P a
  · simp [hP, (h a ha).mpr hP]
  · have : p a = false := by
      cases hp : p a
      · rfl
      · exact absurd ((h a ha).mp hp) hP
    simp [hP, this]

/-! ## The filter of ExploreScreen -/

/-- C1: for every location list, query and threshold, `filteredLocations` is
the stable filter of the list by the rule "the rating reaches the threshold,
and the query is empty or occurs case-insensitively in the name or in the
address"; `toLowerCase` is any function that sends the empty string to the
empty string. -/
theorem filteredLocations_eq_specFilter (toLowerCase : String → String)
    (hEmpty : toLowerCase "" = "") (L : List Location) (q : String) (r : ℚ) :
    filteredLocations toLowerCase L q r = specFilter toLowerCase L q r := by
  unfold filteredLocations specFilter
  apply filter_eq_of_iff
  intro l _
  rw [matchesLocation_iff]
  unfold specMatches specTextMatches
  constructor
  · rintro ⟨ht, hr⟩
    exact ⟨hr, Or.inr ht⟩
  · rintro ⟨hr, hq | ht⟩
    · subst hq
      rw [hEmpty]
      exact ⟨Or.inl List.nil_infix, hr⟩
    · exact ⟨ht, hr⟩

/-- Scenario of the specification for C1: on the two records Cafe Central
(Main St, 4.2) and Library Bar (Side St, 3.8) the filter agrees with the
stable filter, and yields Library Bar for "bar", Cafe Central for threshold
4, and both records for "st". -/
theorem filteredLocations_scenario :
    asciiLowerCase "" = "" ∧
    filteredLocations asciiLowerCase [cafeCentral, libraryBar] "bar" 0 =
      specFilter asciiLowerCase [cafeCentral, libraryBar] "bar" 0 ∧
    filteredLocations asciiLowerCase [cafeCentral, libraryBar] "bar" 0 = [libraryBar] ∧
    filteredLocations asciiLowerCase [cafeCentral, libraryBar] "" 4 = [cafeCentral] ∧
    filteredLocations asciiLowerCase [cafeCentral, libraryBar] "st" 0 =
      [cafeCentral, libraryBar] :=
  ⟨by decide,
   filteredLocations_eq_specFilter asciiLowerCase (by decide) [cafeCentral, libraryBar] "bar" 0,
   by decide!, by decide!, by decide!⟩

/-- C2: with the empty query the filter returns exactly the records whose
rating is at least the threshold (the threshold included), in the original
order. -/
theorem filteredLocations_empty_query (toLowerCase : String → String)
    (hEmpty : toLowerCase "" = "") (L : List Location) (r : ℚ) :
    filteredLocations toLowerCase L "" r = ratingAtLeast L r := by
  unfold filteredLocations ratingAtLeast
  apply filter_eq_of_iff
  intro l _
  rw [matchesLocation_iff]
  unfold specTextMatches
  rw [hEmpty]
  exact ⟨fun h => h.2, fun h => ⟨Or.inl List.nil_infix, h⟩⟩

/-- Instance of C2 on the scenario records: threshold 4 keeps Cafe Central
(4.2) and drops Library Bar (3.8); a record rated exactly 4 is kept. -/
theorem filteredLocations_empty_query_scenario :
    asciiLowerCase "" = "" ∧
    filteredLocations asciiLowerCase [cafeCentral, libraryBar] "" 4 =
      ratingAtLeast [cafeCentral, libraryBar] 4 ∧
    ratingAtLeast [cafeCentral, libraryBar] 4 = [cafeCentral] ∧
    ratingAtLeast [{ cafeCentral with rating := 4 }] 4 = [{ cafeCentral with rating := 4 }] :=
  ⟨by decide,
   filteredLocations_empty_query asciiLowerCase (by decide) [cafeCentral, libraryBar] 4,
   by decide!, by decide!⟩

/-- C3 as the code has it: on a list whose ratings are all non-negative
(the range of the data model), the filter with threshold 0 returns exactly
the records in which the query occurs, case-insensitively, in the name or in
the address; this holds for every query, non-empty ones in particular. -/
theorem filteredLocations_zero_threshold (toLowerCase : String → String)
    (L : List Location) (hRange : ∀ l ∈ L, 0 ≤ l.rating) (q : String) :
    filteredLocations toLowerCase L q 0 = textMatching toLowerCase L q := by
  unfold filteredLocations textMatching
  apply filter_eq_of_iff
  intro l hl
  rw [matchesLocation_iff]
  exact ⟨fun h => h.1, fun h => ⟨h, hRange l hl⟩⟩

/-- Instance of C3 on the scenario records with the query "bar". -/
theorem filteredLocations_zero_threshold_scenario :
    (∀ l ∈ [cafeCentral, libraryBar], 0 ≤ l.rating) ∧
    filteredLocations asciiLowerCase [cafeCentral, libraryBar] "bar" 0 =
      textMatching asciiLowerCase [cafeCentral, libraryBar] "bar" ∧
    textMatching asciiLowerCase [cafeCentral, libraryBar] "bar" = [libraryBar] :=
  ⟨by decide!,
   filteredLocations_zero_threshold asciiLowerCase [cafeCentral, libraryBar] (by decide!) "bar",
   by decide!⟩

/-- C3 as stated fails on a list with a negative rating: the non-empty query
"cafe" occurs in the name of the record rated -1, yet the filter with
threshold 0 removes the record, because the code tests `rating >= 0`. -/
theorem filteredLocations_zero_threshold_negative :
    filteredLocations asciiLowerCase [cafeBelowZero] "cafe" 0 = [] ∧
    textMatching asciiLowerCase [cafeBelowZero] "cafe" = [cafeBelowZero] ∧
    filteredLocations asciiLowerCase [cafeBelowZero] "cafe" 0 ≠
      textMatching asciiLowerCase [cafeBelowZero] "cafe" :=
  ⟨by decide!, by decide!, by decide!⟩

/-- C4, the code at a blank query: the two-blank query is compared as typed,
so it removes both scenario records, whereas the empty query keeps them;
`hasActiveFilters`, which trims the query, reports no active filter. -/
theorem filteredLocations_blank_query :
    filteredLocations asciiLowerCase [cafeCentral, libraryBar] "  " 0 = [] ∧
    filteredLocations asciiLowerCase [cafeCentral, libraryBar] "" 0 =
      [cafeCentral, libraryBar] ∧
    hasActiveFilters asciiTrim "  " 0 = false ∧
    filteredLocations asciiLowerCase [cafeCentral, libraryBar] "  " 0 ≠
      filteredLocations asciiLowerCase [cafeCentral, libraryBar] "" 0 :=
  ⟨by decide!, by decide!, by decide!, by decide!⟩

/-- C5: the filter is idempotent: filtering its own output again with the
same query and threshold changes nothing. -/
theorem filteredLocations_idempotent (toLowerCase : String → String) (L : List Location)
    (q : String) (r : ℚ) :
    filteredLocations toLowerCase (filteredLocations toLowerCase L q r) q r =
      filteredLocations toLowerCase L q r := by
  unfold filteredLocations
  rw [List.filter_filter]
  simp

/-! ## The local fallback of api/ai.js -/

theorem randomIndex_range (random : ℚ) (h0 : 0 ≤ random) (h1 : random < 1)
    (xs : List String) (hlen : xs.length = 4) :
    0 ≤ randomIndex random xs ∧ randomIndex random xs < 4 := by
  unfold randomIndex
  rw [hlen]
  constructor
  · apply Int.floor_nonneg.mpr
    positivity
  · rw [Int.floor_lt]
    push_cast
    linarith

theorem arrayAt_of_range (xs : List String) (hlen : xs.length = 4) (i : ℤ)
    (h0 : 0 ≤ i) (h4 : i < 4) : ∃ x, x ∈ xs ∧ arrayAt xs i = some x := by
  have hi : i.toNat < xs.length := by omega
  refine ⟨xs[i.toNat], List.getElem_mem hi, ?_⟩
  unfold arrayAt
  rw [if_pos h0]
  exact List.getElem?_eq_getElem hi

theorem infix_append_middle (a d b : String) : d.data <:+: (a ++ d ++ b).data := by
  refine ⟨a.data, b.data, ?_⟩
  simp [String.data_append]

/-- C6: for every description and every outcome of the two random
selections (two values in `[0, 1)`), both indices fall inside their
four-element arrays and `enhanceDescription` returns a string, never fails:
the string is one of the four prefixes, then the description, a blank, one
of the four vibe words with its first character upper-cased, and the fixed
suffix; it is not empty and contains the description as a contiguous
block. -/
theorem enhanceDescription_spec (toUpperCase : String → String) (random1 random2 : ℚ)
    (h1 : 0 ≤ random1 ∧ random1 < 1) (h2 : 0 ≤ random2 ∧ random2 < 1)
    (description : String) :
    (0 ≤ randomIndex random1 enhancements ∧ randomIndex random1 enhancements < 4) ∧
    (0 ≤ randomIndex random2 vibeWords ∧ randomIndex random2 vibeWords < 4) ∧
    ∃ e ∈ enhancements, ∃ w ∈ vibeWords, ∃ s : String,
      enhanceDescription toUpperCase random1 random2 description = some s ∧
      s = e ++ description ++ " " ++ (toUpperCase (charAt0 w) ++ slice1 w) ++ vibeSuffix ∧
      s ≠ "" ∧ description.data <:+: s.data := by
  have r1 := randomIndex_range random1 h1.1 h1.2 enhancements rfl
  have r2 := randomIndex_range random2 h2.1 h2.2 vibeWords rfl
  obtain ⟨e, he, hae⟩ := arrayAt_of_range enhancements rfl _ r1.1 r1.2
  obtain ⟨w, hw, haw⟩ := arrayAt_of_range vibeWords rfl _ r2.1 r2.2
  refine ⟨r1, r2, e, he, w, hw, _, ?_, rfl, ?_, ?_⟩
  · simp only [enhanceDescription, hae, haw, interpolate, Option.getD_some]
  · intro hs
    have hlen := congrArg String.length hs
    simp only [String.length_append] at hlen
    have hpos : 0 < vibeSuffix.length := by decide
    have hzero : ("" : String).length = 0 := rfl
    omega
  · have := infix_append_middle e description
      (" " ++ (toUpperCase (charAt0 w) ++ slice1 w) ++ vibeSuffix)
    simp [String.append_assoc] at this ⊢

/-- Scenario of the specification for C6: the fallback applied to
"Nice place" with the draws 0 and 1/2 returns the first prefix, the text, and
the third vibe word capitalised. -/
theorem enhanceDescription_nice_place :
    ((0 : ℚ) ≤ 0 ∧ (0 : ℚ) < 1) ∧ ((0 : ℚ) ≤ 1 / 2 ∧ (1 / 2 : ℚ) < 1) ∧
    enhanceDescription asciiUpperCase 0 (1 / 2) "Nice place" =
      some "✨ Nice place Energia de aici este incredibilă! 🚀" ∧
    ∃ s : String, enhanceDescription asciiUpperCase 0 (1 / 2) "Nice place" = some s ∧
      s ≠ "" ∧ "Nice place".data <:+: s.data := by
  have h := enhanceDescription_spec asciiUpperCase 0 (1 / 2) (by norm_num) (by norm_num)
    "Nice place"
  obtain ⟨_, _, e, _, w, _, s, hs, _, hne, hin⟩ := h
  exact ⟨by norm_num, by norm_num, by decide!, s, hs, hne, hin⟩

/-! ## The remote call of api/ai.js -/

theorem getProp_eq (v : Option Json) (key : String) :
    getProp v key = Except.ok (v.bind (Json.field key)) ∨
      (getProp v key = Except.error () ∧ (v = none ∨ v = some Json.null)) := by
  cases v with
  | none => simp [getProp]
  | some w => cases w <;> simp [getProp, Json.field]

theorem getIndex0_eq (v : Option Json) :
    getIndex0 v = Except.ok (v.bind Json.first) ∨
      (getIndex0 v = Except.error () ∧ (v = none ∨ v = some Json.null)) := by
  cases v with
  | none => simp [getIndex0]
  | some w => cases w <;> simp [getIndex0, Json.first]

theorem callTrim_eq (trim : String → String) (v : Option Json) :
    callTrim trim v =
      match textOf v with
      | some text => Except.ok (trim text)
      | none => Except.error () := by
  unfold callTrim textOf
  split <;> simp

theorem contentStep (trim : String → String) (m : Option Json) :
    (getProp m "content" >>= callTrim trim) =
      match textOf (m.bind (Json.field "content")) with
      | some text => Except.ok (trim text)
      | none => Except.error () := by
  rcases getProp_eq m "content" with h | ⟨h, rfl | rfl⟩
  · rw [h]; exact callTrim_eq trim _
  · rw [h]; rfl
  · rw [h]; rfl

theorem messageStep (trim : String → String) (f : Option Json) :
    (getProp f "message" >>= fun m => getProp m "content" >>= callTrim trim) =
      match textOf ((f.bind (Json.field "message")).bind (Json.field "content")) with
      | some text => Except.ok (trim text)
      | none => Except.error () := by
  rcases getProp_eq f "message" with h | ⟨h, rfl | rfl⟩
  · rw [h]; exact contentStep trim _
  · rw [h]; rfl
  · rw [h]; rfl

theorem indexStep (trim : String → String) (c : Option Json) :
    (getIndex0 c >>= fun f => getProp f "message" >>= fun m =>
        getProp m "content" >>= callTrim trim) =
      match textOf (((c.bind Json.first).bind (Json.field "message")).bind
          (Json.field "content")) with
      | some text => Except.ok (trim text)
      | none => Except.error () := by
  rcases getIndex0_eq c with h | ⟨h, rfl | rfl⟩
  · rw [h]; exact messageStep trim _
  · rw [h]; rfl
  · rw [h]; rfl

/-- The expression of line 47 succeeds exactly on the bodies that have a
string at `choices[0].message.content`, and then yields that string
trimmed. -/
theorem remoteContent_eq (trim : String → String) (data : Json) :
    remoteContent trim data =
      match specContent data with
      | some text => Except.ok (trim text)
      | none => Except.error () := by
  have hs : specContent data = textOf (((((some data).bind (Json.field "choices")).bind
      Json.first).bind (Json.field "message")).bind (Json.field "content")) := rfl
  rw [hs]
  unfold remoteContent
  rcases getProp_eq (some data) "choices" with h | ⟨h, h' | h'⟩
  · rw [h]; exact indexStep trim _
  · cases h'
  · cases h'
    rw [h]; rfl

theorem isFalsy_of_key (key : String) (hkey : key ≠ "") : isFalsy (some key) = false := by
  simp [isFalsy, hkey]

/-- The value of `generateVibe` on a host that has a key, by the outcome of
the remote call. -/
theorem generateVibe_value_with_key (host : Host) (description key : String)
    (hk : host.apiKey = some key) (hkey : key ≠ "") :
    (generateVibe host description).value =
      match host.fetch (vibeRequest key description) with
      | FetchResult.response true (some data) =>
        match specContent data with
        | some text => some (host.trim text)
        | none => fallbackOf host description
      | _ => fallbackOf host description := by
  unfold generateVibe
  rw [hk, isFalsy_of_key key hkey]
  simp only [Option.getD_some, Bool.false_eq_true, if_false]
  cases hf : host.fetch (vibeRequest key description) with
  | rejected => rfl
  | response ok json =>
    cases ok with
    | false => rfl
    | true =>
      cases json with
      | none => rfl
      | some data =>
        simp only [Bool.not_true, Bool.false_eq_true, if_false]
        rw [remoteContent_eq]
        cases specContent data <;> rfl

theorem generateVibe_value_without_key (host : Host) (description : String)
    (hk : host.apiKey = none ∨ host.apiKey = some "") :
    generateVibe host description =
      { value := fallbackOf host description, effects := [] } := by
  unfold generateVibe fallbackOf
  rcases hk with hk | hk <;> simp [hk, isFalsy]

/-- C7: when no key is configured (the variable is absent or empty),
`generateVibe` returns the value of `enhanceDescription` on the description
and has no effect at all; in particular `fetch` is not called. -/
theorem generateVibe_without_key (host : Host) (description : String)
    (hk : host.apiKey = none ∨ host.apiKey = some "") :
    (generateVibe host description).value =
        enhanceDescription host.toUpperCase host.random1 host.random2 description ∧
      (generateVibe host description).effects = [] ∧
      fetchCount (generateVibe host description).effects = 0 ∧
      ∀ request, Effect.fetch request ∉ (generateVibe host description).effects := by
  rw [generateVibe_value_without_key host description hk]
  refine ⟨rfl, rfl, rfl, ?_⟩
  intro request h
  cases h

/-- Instance of C7: on a host without a key, whose `fetch` would have
answered, the value is the local fallback for "Nice place" and no request is
sent; the same holds when the key is the empty string. -/
theorem generateVibe_without_key_nice_place :
    (hostWithoutKey.apiKey = none ∨ hostWithoutKey.apiKey = some "") ∧
    (generateVibe hostWithoutKey "Nice place").value =
      enhanceDescription asciiUpperCase 0 (1 / 2) "Nice place" ∧
    fetchCount (generateVibe hostWithoutKey "Nice place").effects = 0 ∧
    generateVibe { hostWithoutKey with apiKey := some "" } "Nice place" =
      { value := some "✨ Nice place Energia de aici este incredibilă! 🚀", effects := [] } :=
  ⟨Or.inl rfl,
   (generateVibe_without_key hostWithoutKey "Nice place" (Or.inl rfl)).1,
   (generateVibe_without_key hostWithoutKey "Nice place" (Or.inl rfl)).2.2.1,
   by decide!⟩

theorem fallbackOf_some (host : Host) (h1 : 0 ≤ host.random1 ∧ host.random1 < 1)
    (h2 : 0 ≤ host.random2 ∧ host.random2 < 1) (description : String) :
    ∃ s, fallbackOf host description = some s := by
  have r1 := randomIndex_range host.random1 h1.1 h1.2 enhancements rfl
  have r2 := randomIndex_range host.random2 h2.1 h2.2 vibeWords rfl
  obtain ⟨e, _, hae⟩ := arrayAt_of_range enhancements rfl _ r1.1 r1.2
  obtain ⟨w, _, haw⟩ := arrayAt_of_range vibeWords rfl _ r2.1 r2.2
  simp only [fallbackOf, enhanceDescription, hae, haw]
  exact ⟨_, rfl⟩

/-- C8: `generateVibe` never fails and falls back on every failure of the
remote call.  For every host whose two random values lie in `[0, 1)` and
every description: the promise resolves to a string; with a key configured,
the value is the local fallback `enhanceDescription description` when `fetch`
rejects, when the response is not ok, when `response.json()` rejects and when
the body has no string at `choices[0].message.content`; it is the trimmed
remote text when the response is ok and the body has one; and a value that is
not the local fallback arises only in that last case. -/
theorem generateVibe_never_fails (host : Host)
    (h1 : 0 ≤ host.random1 ∧ host.random1 < 1) (h2 : 0 ≤ host.random2 ∧ host.random2 < 1)
    (description : String) :
    (∃ s, (generateVibe host description).value = some s) ∧
    (∀ key, host.apiKey = some key → key ≠ "" →
      (host.fetch (vibeRequest key description) = FetchResult.rejected →
        (generateVibe host description).value =
          enhanceDescription host.toUpperCase host.random1 host.random2 description) ∧
      (∀ json, host.fetch (vibeRequest key description) = FetchResult.response false json →
        (generateVibe host description).value =
          enhanceDescription host.toUpperCase host.random1 host.random2 description) ∧
      (host.fetch (vibeRequest key description) = FetchResult.response true none →
        (generateVibe host description).value =
          enhanceDescription host.toUpperCase host.random1 host.random2 description) ∧
      (∀ data, host.fetch (vibeRequest key description) =
          FetchResult.response true (some data) → specContent data = none →
        (generateVibe host description).value =
          enhanceDescription host.toUpperCase host.random1 host.random2 description) ∧
      (∀ data text, host.fetch (vibeRequest key description) =
          FetchResult.response true (some data) → specContent data = some text →
        (generateVibe host description).value = some (host.trim text))) ∧
    ((generateVibe host description).value ≠
        enhanceDescription host.toUpperCase host.random1 host.random2 description →
      ∃ key data text, host.apiKey = some key ∧ key ≠ "" ∧
        host.fetch (vibeRequest key description) = FetchResult.response true (some data) ∧
        specContent data = some text ∧
        (generateVibe host description).value = some (host.trim text)) := by
  have hfb : enhanceDescription host.toUpperCase host.random1 host.random2 description =
      fallbackOf host description := rfl
  simp only [hfb]
  obtain ⟨fb, hfbs⟩ := fallbackOf_some host h1 h2 description
  refine ⟨?_, ?_, ?_⟩
  · cases hk : host.apiKey with
    | none => exact ⟨fb, by rw [generateVibe_value_without_key host description (Or.inl hk)]; exact hfbs⟩
    | some key =>
      by_cases hkey : key = ""
      · subst hkey
        exact ⟨fb, by rw [generateVibe_value_without_key host description (Or.inr hk)]; exact hfbs⟩
      · rw [generateVibe_value_with_key host description key hk hkey]
        split
        · split
          · exact ⟨_, rfl⟩
          · exact ⟨fb, hfbs⟩
        · exact ⟨fb, hfbs⟩
  · intro key hk hkey
    have hv := generateVibe_value_with_key host description key hk hkey
    refine ⟨?_, ?_, ?_, ?_, ?_⟩
    · intro hf
      rw [hv, hf]
    · intro json hf
      rw [hv, hf]
    · intro hf
      rw [hv, hf]
    · intro data hf hc
      rw [hv, hf]
      simp only [hc]
    · intro data text hf hc
      rw [hv, hf]
      simp only [hc]
  · intro hne
    cases hk : host.apiKey with
    | none =>
      exact absurd (by rw [generateVibe_value_without_key host description (Or.inl hk)]) hne
    | some key =>
      by_cases hkey : key = ""
      · subst hkey
        exact absurd (by rw [generateVibe_value_without_key host description (Or.inr hk)]) hne
      · have hv := generateVibe_value_with_key host description key hk hkey
        cases hf : host.fetch (vibeRequest key description) with
        | rejected => rw [hf] at hv; exact absurd hv hne
        | response ok json =>
          rw [hf] at hv
          cases ok with
          | false => exact absurd hv hne
          | true =>
            cases json with
            | none => exact absurd hv hne
            | some data =>
              cases hc : specContent data with
              | none => simp only [hc] at hv; exact absurd hv hne
              | some text =>
                simp only [hc] at hv
                exact ⟨key, data, text, rfl, hkey, hf, hc, hv⟩

/-- Instance of C8: with a key configured and `fetch` rejecting, the call
requests once, logs the error and resolves to the local fallback; with the
documented body it resolves to the trimmed remote text. -/
theorem generateVibe_never_fails_offline :
    (0 ≤ hostOffline.random1 ∧ hostOffline.random1 < 1) ∧
    (0 ≤ hostOffline.random2 ∧ hostOffline.random2 < 1) ∧
    (∃ s, (generateVibe hostOffline "Nice place").value = some s) ∧
    generateVibe hostOffline "Nice place" =
      { value := some "✨ Nice place Energia de aici este incredibilă! 🚀"
        effects := [Effect.fetch (vibeRequest "sk-test" "Nice place"), Effect.consoleError] } ∧
    generateVibe hostWithKey "Nice place" =
      { value := some "remote text"
        effects := [Effect.fetch (vibeRequest "sk-test" "Nice place")] } :=
  ⟨by decide!, by decide!,
   (generateVibe_never_fails hostOffline (by decide!) (by decide!) "Nice place").1,
   by decide!, by decide!⟩

/-! ## MapViewComponent -/

theorem marker_of_coordinates {β : Type} (onMarkerPress : Location → β) (location : Location)
    (c : Coordinates) (hc : location.coordinates = some c) :
    marker onMarkerPress location = Except.ok (markerView onMarkerPress location c) := by
  unfold marker
  rw [hc]

theorem markers_of_coordinates {β : Type} (onMarkerPress : Location → β)
    (locations : List Location) (hall : ∀ l ∈ locations, l.coordinates ≠ none) :
    ∃ ms : List (MarkerView β), markers onMarkerPress locations = Except.ok ms ∧
      ms.length = locations.length ∧
      ms.map (fun m => m.onPress ()) = locations.map onMarkerPress ∧
      ms.map (fun m => some m.coordinate) = locations.map (fun l => l.coordinates) ∧
      ms.map (fun m => m.key) = locations.map (fun l => l.id) ∧
      ms.map (fun m => m.title) = locations.map (fun l => l.name) ∧
      ms.map (fun m => m.description) = locations.map (fun l => l.address) := by
  induction locations with
  | nil => exact ⟨[], rfl, rfl, rfl, rfl, rfl, rfl, rfl⟩
  | cons l rest ih =>
    obtain ⟨ms, hms, hlen, hpress, hcoord, hkey, htitle, hdesc⟩ :=
      ih (fun x hx => hall x (List.mem_cons_of_mem l hx))
    obtain ⟨c, hc⟩ := Option.ne_none_iff_exists'.mp (hall l (List.mem_cons_self l rest))
    refine ⟨markerView onMarkerPress l c :: ms, ?_, ?_, ?_, ?_, ?_, ?_, ?_⟩
    · simp only [markers, marker_of_coordinates onMarkerPress l c hc, hms]
    · simp [hlen]
    · simp [hpress, markerView]
    · simp [hcoord, hc, markerView]
    · simp [hkey, markerView]
    · simp [htitle, markerView]
    · simp [hdesc, markerView]

/-- C9 as the code has it: when the map capability is available and every
location of the list has coordinates, rendering does not fail and the view
contains exactly one marker per location, in the order of the list; each
marker carries the identifier, position, name and address of its location
and its press handler calls `onMarkerPress` with that location. -/
theorem MapViewComponent_markers {β : Type} (locations : List Location)
    (onMarkerPress : Location → β) (initialRegion : Region)
    (hall : ∀ l ∈ locations, l.coordinates ≠ none) :
    ∃ view : Rendered β,
      MapViewComponent true locations onMarkerPress initialRegion = Except.ok view ∧
      view.markerList.length = locations.length ∧
      view.markerList.map (fun m => m.onPress ()) = locations.map onMarkerPress ∧
      view.markerList.map (fun m => some m.coordinate) =
        locations.map (fun l => l.coordinates) ∧
      view.markerList.map (fun m => m.key) = locations.map (fun l => l.id) ∧
      view.markerList.map (fun m => m.title) = locations.map (fun l => l.name) ∧
      view.markerList.map (fun m => m.description) = locations.map (fun l => l.address) := by
  cases locations with
  | nil => exact ⟨_, rfl, rfl, rfl, rfl, rfl, rfl, rfl⟩
  | cons l rest =>
    obtain ⟨ms, hms, hrest⟩ := markers_of_coordinates onMarkerPress (l :: rest) hall
    refine ⟨Rendered.map initialRegion true true ms, ?_, hrest⟩
    simp [MapViewComponent, hms]

/-- Instance of C9 as the code has it: a list of one placed record renders
as a map with one marker whose press yields that record. -/
theorem MapViewComponent_markers_placed :
    (∀ l ∈ [libraryBarPlaced], l.coordinates ≠ none) ∧
    ∃ view : Rendered Location,
      MapViewComponent true [libraryBarPlaced] id defaultRegion = Except.ok view ∧
      view.markerList.length = 1 ∧
      view.markerList.map (fun m => m.onPress ()) = [libraryBarPlaced] := by
  have hall : ∀ l ∈ [libraryBarPlaced], l.coordinates ≠ none := by
    intro l hl
    rw [List.mem_singleton] at hl
    subst hl
    exact Option.some_ne_none _
  obtain ⟨view, hview, hlen, hpress, _⟩ :=
    MapViewComponent_markers [libraryBarPlaced] (id : Location → Location) defaultRegion hall
  exact ⟨hall, view, hview, hlen, hpress⟩

/-- C9 as stated fails: with the map capability available, a list that
holds a record without coordinates (here after a placed one) does not render
at all: the call throws, so no marker is produced for the placed record
either. -/
theorem MapViewComponent_missing_coordinates :
    cafeCentral.coordinates = none ∧
    MapViewComponent true [libraryBarPlaced, cafeCentral] (id : Location → Location)
      defaultRegion = Except.error () ∧
    ¬ ∃ view : Rendered Location,
      MapViewComponent true [libraryBarPlaced, cafeCentral] id defaultRegion =
        Except.ok view := by
  have h : MapViewComponent true [libraryBarPlaced, cafeCentral] (id : Location → Location)
      defaultRegion = Except.error () := rfl
  refine ⟨rfl, h, ?_⟩
  rintro ⟨view, hview⟩
  rw [h] at hview
  cases hview

/-- C10: with the map capability available, the empty list renders the
notice "Nicio locație pentru filtrele curente" (no location for the current
filters), which is not the map and holds no marker; a non-empty list never
renders that notice: the call yields the map or throws. -/
theorem MapViewComponent_empty_notice {β : Type} (onMarkerPress : Location → β)
    (initialRegion : Region) :
    (∃ view : Rendered β,
      MapViewComponent true [] onMarkerPress initialRegion = Except.ok view ∧
      view.emptyNotice = some "Nicio locație pentru filtrele curente" ∧
      view.showsMap = false ∧ view.markerList = []) ∧
    ∀ (l : Location) (rest : List Location),
      MapViewComponent true (l :: rest) onMarkerPress initialRegion = Except.error () ∨
      ∃ ms, MapViewComponent true (l :: rest) onMarkerPress initialRegion =
          Except.ok (Rendered.map initialRegion true true ms) ∧
        (Rendered.map initialRegion true true ms).emptyNotice = none := by
  refine ⟨⟨_, rfl, rfl, rfl, rfl⟩, ?_⟩
  intro l rest
  cases hm : markers onMarkerPress (l :: rest) with
  | error e =>
    left
    simp [MapViewComponent, hm]
  | ok ms =>
    right
    exact ⟨ms, by simp [MapViewComponent, hm], rfl⟩

/-! ## MapViewComponent: the fallback view -/

theorem MapViewComponent_unavailable {β : Type} (locations : List Location)
    (onMarkerPress : Location → β) (initialRegion : Region) :
    MapViewComponent false locations onMarkerPress initialRegion =
      Except.ok (Rendered.fallback "Hartă indisponibilă în Expo Go"
        "Pentru a folosi hărțile, construiește aplicația cu EAS Build"
        (locations.map (fallbackItem onMarkerPress))) := rfl

theorem fallbackItem_shown {β : Type} (onMarkerPress : Location → β)
    (locations : List Location) :
    (locations.map (fallbackItem onMarkerPress)).map (fun i => (i.key, i.name, i.address)) =
      locations.map shownFields := by
  rw [List.map_map]
  rfl

theorem fallbackItem_press {β : Type} (onMarkerPress : Location → β)
    (locations : List Location) :
    (locations.map (fallbackItem onMarkerPress)).map (fun i => i.onPress ()) =
      locations.map onMarkerPress := by
  rw [List.map_map]
  rfl

theorem fallbackItem_congr {β : Type} (onMarkerPress : Location → β) :
    ∀ L₁ L₂ : List Location, L₁.map shownFields = L₂.map shownFields →
      L₁.map onMarkerPress = L₂.map onMarkerPress →
      L₁.map (fallbackItem onMarkerPress) = L₂.map (fallbackItem onMarkerPress)
  | [], [], _, _ => rfl
  | [], _ :: _, h, _ => by simp at h
  | _ :: _, [], h, _ => by simp at h
  | a :: as, b :: bs, h, hp => by
    simp only [List.map_cons, List.cons.injEq] at h hp ⊢
    refine ⟨?_, fallbackItem_congr onMarkerPress as bs h.2 hp.2⟩
    have hf := h.1
    simp only [shownFields, Prod.mk.injEq] at hf
    simp only [fallbackItem, hf.1, hf.2.1, hf.2.2, hp.1]

/-- C11: when the map capability is unavailable, the rendering does not
depend on coordinates.  For two location lists that agree, element by
element, on id, name and address (and may differ in everything else, the
coordinates included, present or absent), neither call fails, both show the
same thing: the unavailability notice and one entry per location, in input
order, with the key, name and address of that location; the press handler
of each entry calls `onMarkerPress` with its own location; and when
`onMarkerPress` treats the two lists alike the two views are equal. -/
theorem MapViewComponent_fallback_ignores_coordinates {β : Type} (L₁ L₂ : List Location)
    (onMarkerPress : Location → β) (region₁ region₂ : Region)
    (hagree : L₁.map shownFields = L₂.map shownFields) :
    ∃ view₁ view₂ : Rendered β,
      MapViewComponent false L₁ onMarkerPress region₁ = Except.ok view₁ ∧
      MapViewComponent false L₂ onMarkerPress region₂ = Except.ok view₂ ∧
      view₁.fallbackDisplay = view₂.fallbackDisplay ∧
      view₁.fallbackDisplay = some ("Hartă indisponibilă în Expo Go",
        "Pentru a folosi hărțile, construiește aplicația cu EAS Build",
        L₁.map shownFields) ∧
      view₁.fallbackItems.length = L₁.length ∧
      view₁.fallbackItems.map (fun i => i.onPress ()) = L₁.map onMarkerPress ∧
      view₂.fallbackItems.map (fun i => i.onPress ()) = L₂.map onMarkerPress ∧
      (L₁.map onMarkerPress = L₂.map onMarkerPress → view₁ = view₂) := by
  refine ⟨_, _, MapViewComponent_unavailable L₁ onMarkerPress region₁,
    MapViewComponent_unavailable L₂ onMarkerPress region₂, ?_, ?_, ?_, ?_, ?_, ?_⟩
  · simp only [Rendered.fallbackDisplay, fallbackItem_shown, hagree]
  · simp only [Rendered.fallbackDisplay, fallbackItem_shown]
  · simp only [Rendered.fallbackItems, List.length_map]
  · exact fallbackItem_press onMarkerPress L₁
  · exact fallbackItem_press onMarkerPress L₂
  · intro hpress
    rw [fallbackItem_congr onMarkerPress L₁ L₂ hagree hpress]

/-- Instance of C11: Library Bar without coordinates and Library Bar with
coordinates render the same fallback view, and the press handlers return
the record they were given. -/
theorem MapViewComponent_fallback_library_bar :
    [libraryBar].map shownFields = [libraryBarPlaced].map shownFields ∧
    libraryBar.coordinates ≠ libraryBarPlaced.coordinates ∧
    ∃ view₁ view₂ : Rendered Location,
      MapViewComponent false [libraryBar] id defaultRegion = Except.ok view₁ ∧
      MapViewComponent false [libraryBarPlaced] id defaultRegion = Except.ok view₂ ∧
      view₁.fallbackDisplay = view₂.fallbackDisplay ∧
      view₁.fallbackItems.map (fun i => i.onPress ()) = [libraryBar] ∧
      view₂.fallbackItems.map (fun i => i.onPress ()) = [libraryBarPlaced] := by
  have hagree : [libraryBar].map shownFields = [libraryBarPlaced].map shownFields := rfl
  obtain ⟨view₁, view₂, h₁, h₂, hsame, _, _, hp₁, hp₂, _⟩ :=
    MapViewComponent_fallback_ignores_coordinates [libraryBar] [libraryBarPlaced]
      (id : Location → Location) defaultRegion defaultRegion hagree
  exact ⟨hagree, by decide, view₁, view₂, h₁, h₂, hsame, hp₁, hp₂⟩

/-! ## MapViewComponent: the probe at module load -/

theorem renderCalls_eq {β : Type} (onMarkerPress : Location → β) (s : MapsState)
    (calls : List (List Location × Region)) : renderCalls onMarkerPress s calls = s := by
  unfold renderCalls
  induction calls with
  | nil => rfl
  | cons call rest ih => simp [List.foldl_cons, renderCall]

/-- The probe on two hosts: with the module present the capability is
available and `MapView` and `Marker` are bound; in Expo Go, where `require`
throws, it is not. -/
theorem probe_hosts :
    probe hostWithMaps =
      Except.ok { MapView := some "MapView", Marker := some "Marker", mapsAvailable := true } ∧
    probe hostExpoGo = Except.ok { MapView := none, Marker := none, mapsAvailable := false } :=
  ⟨rfl, rfl⟩

/-- C12: the probe is non-fatal and decides the state once.  For every host,
loading the module ends without an exception; `mapsAvailable` is false when
`require` throws, when it returns a falsy value and when the module has
neither a `default` nor a `MapView` export; it is true exactly when `require`
exists, returns a module, and that module has a `default` or a `MapView`
export; and no call, or series of calls, of `MapViewComponent` changes the
module variables. -/
theorem probe_decides_once (host : ProbeHost) :
    ∃ s : MapsState, probe host = Except.ok s ∧
      (host.require = RequireOutcome.throws → s.mapsAvailable = false) ∧
      (host.require = RequireOutcome.returns none → s.mapsAvailable = false) ∧
      (∀ maps, host.require = RequireOutcome.returns (some maps) →
        maps.default = none → maps.MapView = none → s.mapsAvailable = false) ∧
      (s.mapsAvailable = true ↔
        host.requireDefined = true ∧
          ∃ maps, host.require = RequireOutcome.returns (some maps) ∧
            (maps.default ≠ none ∨ maps.MapView ≠ none)) ∧
      (∀ (β : Type) (locations : List Location) (onMarkerPress : Location → β)
          (initialRegion : Region),
        (renderCall s locations onMarkerPress initialRegion).1 = s) ∧
      (∀ (β : Type) (onMarkerPress : Location → β) (calls : List (List Location × Region)),
        (renderCalls onMarkerPress s calls).mapsAvailable = s.mapsAvailable) := by
  obtain ⟨defined, req⟩ := host
  have hcalls : ∀ s : MapsState, (∀ (β : Type) (locations : List Location)
      (onMarkerPress : Location → β) (initialRegion : Region),
        (renderCall s locations onMarkerPress initialRegion).1 = s) ∧
      (∀ (β : Type) (onMarkerPress : Location → β) (calls : List (List Location × Region)),
        (renderCalls onMarkerPress s calls).mapsAvailable = s.mapsAvailable) :=
    fun s => ⟨fun _ _ _ _ => rfl, fun β cb calls => by rw [renderCalls_eq]⟩
  cases defined with
  | false =>
    refine ⟨declaredMapsState, rfl, fun _ => rfl, fun _ => rfl, fun _ _ _ _ => rfl, ?_,
      hcalls _⟩
    simp [declaredMapsState]
  | true =>
    cases req with
    | throws =>
      refine ⟨declaredMapsState, rfl, fun _ => rfl, fun _ => rfl, fun _ _ _ _ => rfl, ?_,
        hcalls _⟩
      simp [declaredMapsState]
    | returns maps =>
      cases maps with
      | none =>
        refine ⟨declaredMapsState, rfl, fun _ => rfl, fun _ => rfl, fun _ _ _ _ => rfl, ?_,
          hcalls _⟩
        simp [declaredMapsState]
      | some maps =>
        obtain ⟨d, mv, mk⟩ := maps
        cases d with
        | some d =>
          refine ⟨{ MapView := some d, Marker := mk, mapsAvailable := true }, rfl, ?_, ?_, ?_,
            ?_, hcalls _⟩
          · intro h; cases h
          · intro h; cases h
          · intro maps h hd _
            cases h
            cases hd
          · simp
        | none =>
          cases mv with
          | some mv =>
            refine ⟨{ MapView := some mv, Marker := mk, mapsAvailable := true }, rfl, ?_, ?_,
              ?_, ?_, hcalls _⟩
            · intro h; cases h
            · intro h; cases h
            · intro maps h _ hmv
              cases h
              cases hmv
            · simp
          | none =>
            refine ⟨declaredMapsState, rfl, fun _ => rfl, fun _ => rfl, fun _ _ _ _ => rfl, ?_,
              hcalls _⟩
            simp [declaredMapsState]

/-! ## DetailsScreen: the reservation hand-off -/

theorem handleReserve_cases (host : LinkingHost) (location : Location)
    (state : DetailsState) :
    (host.canOpenURL (whatsappUrl host location) = Settled.rejected ∧
      handleReserve host location state =
        (state, [ReserveEffect.canOpenURL (whatsappUrl host location),
          ReserveEffect.consoleError,
          ReserveEffect.alert "Eroare" "Nu s-a putut deschide WhatsApp."])) ∨
    (host.canOpenURL (whatsappUrl host location) = Settled.resolved false ∧
      handleReserve host location state =
        (state, [ReserveEffect.canOpenURL (whatsappUrl host location),
          ReserveEffect.alert "Eroare" "WhatsApp nu este instalat pe acest dispozitiv."])) ∨
    (host.canOpenURL (whatsappUrl host location) = Settled.resolved true ∧
      handleReserve host location state =
        (state, [ReserveEffect.canOpenURL (whatsappUrl host location),
          ReserveEffect.openURL (whatsappUrl host location)])) ∨
    (host.canOpenURL (whatsappUrl host location) = Settled.resolved true ∧
      handleReserve host location state =
        (state, [ReserveEffect.canOpenURL (whatsappUrl host location),
          ReserveEffect.openURL (whatsappUrl host location),
          ReserveEffect.consoleError,
          ReserveEffect.alert "Eroare" "Nu s-a putut deschide WhatsApp."])) := by
  cases hc : host.canOpenURL (whatsappUrl host location) with
  | rejected =>
    left
    simp only [handleReserve, hc, reserveCatch, List.cons_append, List.nil_append, true_and]
  | resolved supported =>
    cases supported with
    | false =>
      right; left
      simp [handleReserve, hc]
    | true =>
      cases ho : host.openURL (whatsappUrl host location) with
      | resolved value =>
        right; right; left
        simp [handleReserve, hc, ho]
      | rejected =>
        right; right; right
        simp [handleReserve, hc, ho, reserveCatch]

/-- C13: in `handleReserve`, when `Linking.canOpenURL` reports the deep link
as not supported, exactly one notice is raised, `Linking.openURL` is not
called and the screen state is unchanged.  Over every outcome of `canOpenURL`
and `openURL`: the screen state is unchanged, at most one notice is raised,
`openURL` is called at most once and only after `canOpenURL` reported the
link as supported, and a rejection raises exactly one notice.  The last
part evaluates the call on a host without WhatsApp. -/
theorem handleReserve_notices (host : LinkingHost) (location : Location)
    (state : DetailsState) :
    (handleReserve host location state).1 = state ∧
    alertCount (handleReserve host location state).2 ≤ 1 ∧
    openCount (handleReserve host location state).2 ≤ 1 ∧
    (host.canOpenURL (whatsappUrl host location) = Settled.resolved false →
      alertCount (handleReserve host location state).2 = 1 ∧
      openCount (handleReserve host location state).2 = 0 ∧
      (∀ url, ReserveEffect.openURL url ∉ (handleReserve host location state).2) ∧
      (handleReserve host location state).2 =
        [ReserveEffect.canOpenURL (whatsappUrl host location),
          ReserveEffect.alert "Eroare" "WhatsApp nu este instalat pe acest dispozitiv."]) ∧
    (host.canOpenURL (whatsappUrl host location) = Settled.rejected →
      alertCount (handleReserve host location state).2 = 1 ∧
      openCount (handleReserve host location state).2 = 0) ∧
    (0 < openCount (handleReserve host location state).2 →
      host.canOpenURL (whatsappUrl host location) = Settled.resolved true) ∧
    handleReserve hostNoWhatsapp cafeCentral (initialDetails cafeCentral) =
      (initialDetails cafeCentral,
        [ReserveEffect.canOpenURL "https://wa.me/?text=Rezervare pentru Cafe Central",
          ReserveEffect.alert "Eroare" "WhatsApp nu este instalat pe acest dispozitiv."]) := by
  refine ⟨?_, ?_, ?_, ?_, ?_, ?_, by decide⟩
  all_goals
    rcases handleReserve_cases host location state with ⟨hc, h⟩ | ⟨hc, h⟩ | ⟨hc, h⟩ | ⟨hc, h⟩ <;>
      simp [h, hc, alertCount, openCount]

/-! ## DetailsScreen: the vibe button -/

/-- The invariant of the vibe button: either a single request is in flight
and the flag is set, or none is and the flag is clear. -/
theorem detailsStep_invariant (s : DetailsState) (e : DetailsEvent)
    (h : (s.isGenerating = true ∧ s.inFlight = 1) ∨ (s.isGenerating = false ∧ s.inFlight = 0)) :
    ((detailsStep s e).isGenerating = true ∧ (detailsStep s e).inFlight = 1) ∨
      ((detailsStep s e).isGenerating = false ∧ (detailsStep s e).inFlight = 0) := by
  rcases h with ⟨hg, hf⟩ | ⟨hg, hf⟩ <;> cases e <;> simp [detailsStep, hg, hf]

theorem detailsRun_invariant (events : List DetailsEvent) :
    ∀ s : DetailsState,
      ((s.isGenerating = true ∧ s.inFlight = 1) ∨ (s.isGenerating = false ∧ s.inFlight = 0)) →
      (((detailsRun s events).isGenerating = true ∧ (detailsRun s events).inFlight = 1) ∨
        ((detailsRun s events).isGenerating = false ∧ (detailsRun s events).inFlight = 0)) := by
  induction events with
  | nil => intro s h; exact h
  | cons e rest ih =>
    intro s h
    exact ih (detailsStep s e) (detailsStep_invariant s e h)

/-- A run of the vibe button: the second press, made while the request is
pending, starts nothing; the completion stores the new text and clears the
flag; a failure with nothing pending changes nothing; the last press starts
the next request. -/
theorem detailsRun_presses :
    detailsRun (initialDetails cafeCentral)
        [DetailsEvent.pressGenerate, DetailsEvent.pressGenerate] =
      { description := "", isGenerating := true, inFlight := 1 } ∧
    detailsRun (initialDetails cafeCentral)
        [DetailsEvent.pressGenerate, DetailsEvent.pressGenerate,
          DetailsEvent.requestCompletes "x", DetailsEvent.requestFails] =
      { description := "x", isGenerating := false, inFlight := 0 } ∧
    detailsRun (initialDetails cafeCentral)
        [DetailsEvent.pressGenerate, DetailsEvent.requestFails, DetailsEvent.pressGenerate] =
      { description := "", isGenerating := true, inFlight := 1 } :=
  ⟨by decide, by decide, by decide⟩

/-- C14: at most one text-enhancement request is in flight at a time.  In
every state that `DetailsScreen` reaches from its initial state by presses
of the vibe button (which do nothing while the button is disabled),
completions and failures of the pending request: the number of requests in
flight is at most one; `isGenerating` is true exactly when a request is in
flight; a press while the flag is clear starts exactly one request and sets
the flag; and both a completion and a failure leave the flag clear and no
request in flight. -/
theorem detailsRun_single_flight (location : Location) (events : List DetailsEvent) :
    (detailsRun (initialDetails location) events).inFlight ≤ 1 ∧
    ((detailsRun (initialDetails location) events).isGenerating = true ↔
      0 < (detailsRun (initialDetails location) events).inFlight) ∧
    ((detailsRun (initialDetails location) events).isGenerating = false →
      (detailsStep (detailsRun (initialDetails location) events)
          DetailsEvent.pressGenerate).isGenerating = true ∧
      (detailsStep (detailsRun (initialDetails location) events)
          DetailsEvent.pressGenerate).inFlight = 1) ∧
    ((detailsRun (initialDetails location) events).isGenerating = true →
      detailsStep (detailsRun (initialDetails location) events) DetailsEvent.pressGenerate =
        detailsRun (initialDetails location) events) ∧
    (∀ newDescription,
      (detailsStep (detailsRun (initialDetails location) events)
          (DetailsEvent.requestCompletes newDescription)).isGenerating = false ∧
      (detailsStep (detailsRun (initialDetails location) events)
          (DetailsEvent.requestCompletes newDescription)).inFlight = 0) ∧
    (detailsStep (detailsRun (initialDetails location) events)
        DetailsEvent.requestFails).isGenerating = false ∧
    (detailsStep (detailsRun (initialDetails location) events)
        DetailsEvent.requestFails).inFlight = 0 := by
  have hinv := detailsRun_invariant events (initialDetails location) (Or.inr ⟨rfl, rfl⟩)
  generalize detailsRun (initialDetails location) events = s at hinv
  rcases hinv with ⟨hg, hf⟩ | ⟨hg, hf⟩ <;> simp [detailsStep, hg, hf]

/-! ## ExploreScreen: the filter controls -/

theorem applyOp_minRating (s : ExploreState) (op : ExploreOp)
    (h : s.minRating = 0 ∨ s.minRating = 4) :
    (applyOp s op).minRating = 0 ∨ (applyOp s op).minRating = 4 := by
  cases op with
  | setSearchQuery query => exact h
  | toggleRatingFilter =>
    rcases h with h | h
    · right; simp [applyOp, toggleRatingFilter, h]
    · left; simp [applyOp, toggleRatingFilter, h]
  | clearFilters => left; rfl
  | setViewMode mode => exact h

theorem applyOps_minRating (ops : List ExploreOp) :
    ∀ s : ExploreState, (s.minRating = 0 ∨ s.minRating = 4) →
      ((applyOps s ops).minRating = 0 ∨ (applyOps s ops).minRating = 4) := by
  induction ops with
  | nil => intro s h; exact h
  | cons op rest ih =>
    intro s h
    exact ih (applyOp s op) (applyOp_minRating s op h)

theorem toggleRatingFilter_twice (s : ExploreState) (h : s.minRating = 0 ∨ s.minRating = 4) :
    toggleRatingFilter (toggleRatingFilter s) = s := by
  obtain ⟨viewMode, locations, loading, region, query, rating⟩ := s
  simp only at h
  rcases h with h | h <;> subst h <;> simp [toggleRatingFilter]

theorem filteredLocations_all (toLowerCase : String → String)
    (hEmpty : toLowerCase "" = "") (L : List Location) (hRange : ∀ l ∈ L, 0 ≤ l.rating) :
    filteredLocations toLowerCase L "" 0 = L := by
  unfold filteredLocations
  rw [List.filter_eq_self]
  intro l hl
  rw [matchesLocation_iff]
  unfold specTextMatches
  rw [hEmpty]
  exact ⟨Or.inl List.nil_infix, hRange l hl⟩

/-- C15: the rating filter is a binary toggle.  From a state with empty
query and threshold 0, after any series of `setSearchQuery`,
`toggleRatingFilter`, `clearFilters` and `setViewMode` the threshold is 0 or
4; `toggleRatingFilter` sends 0 to 4 and 4 to 0, so that applying it twice
in a reached state restores that state, and it leaves every other variable
as it was; `clearFilters` always yields the empty query and threshold 0,
after which the filtered list is the full list whenever all ratings are
non-negative. -/
theorem toggleRatingFilter_binary (toLowerCase : String → String)
    (hEmpty : toLowerCase "" = "") (start : ExploreState)
    (hstart : start.searchQuery = "" ∧ start.minRating = 0) (ops : List ExploreOp) :
    ((applyOps start ops).minRating = 0 ∨ (applyOps start ops).minRating = 4) ∧
    (∀ s : ExploreState, s.minRating = 0 → (toggleRatingFilter s).minRating = 4) ∧
    (∀ s : ExploreState, s.minRating = 4 → (toggleRatingFilter s).minRating = 0) ∧
    toggleRatingFilter (toggleRatingFilter (applyOps start ops)) = applyOps start ops ∧
    (∀ s : ExploreState,
      (toggleRatingFilter s).viewMode = s.viewMode ∧
      (toggleRatingFilter s).locations = s.locations ∧
      (toggleRatingFilter s).loading = s.loading ∧
      (toggleRatingFilter s).initialRegion = s.initialRegion ∧
      (toggleRatingFilter s).searchQuery = s.searchQuery) ∧
    (∀ s : ExploreState,
      (clearFilters s).searchQuery = "" ∧ (clearFilters s).minRating = 0 ∧
      ((∀ l ∈ s.locations, 0 ≤ l.rating) →
        filteredOf toLowerCase (clearFilters s) = s.locations)) := by
  have hreach := applyOps_minRating ops start (Or.inl hstart.2)
  refine ⟨hreach, ?_, ?_, toggleRatingFilter_twice _ hreach, ?_, ?_⟩
  · intro s h
    simp [toggleRatingFilter, h]
  · intro s h
    simp [toggleRatingFilter, h]
  · intro s
    exact ⟨rfl, rfl, rfl, rfl, rfl⟩
  · intro s
    refine ⟨rfl, rfl, ?_⟩
    intro hRange
    exact filteredLocations_all toLowerCase hEmpty s.locations hRange

/-- Instance of C15 on the screen with the two scenario records loaded:
after a toggle, a query and a change of view the threshold is 4 and only
Library Bar fails it; clearing the filters gives back both records. -/
theorem toggleRatingFilter_binary_scenario :
    asciiLowerCase "" = "" ∧
    (loadedExplore.searchQuery = "" ∧ loadedExplore.minRating = 0) ∧
    ((applyOps loadedExplore [ExploreOp.toggleRatingFilter, ExploreOp.setSearchQuery "a",
        ExploreOp.setViewMode "map"]).minRating = 0 ∨
      (applyOps loadedExplore [ExploreOp.toggleRatingFilter, ExploreOp.setSearchQuery "a",
        ExploreOp.setViewMode "map"]).minRating = 4) ∧
    filteredOf asciiLowerCase (applyOps loadedExplore [ExploreOp.toggleRatingFilter,
      ExploreOp.setSearchQuery "a", ExploreOp.setViewMode "map"]) = [cafeCentral] ∧
    filteredOf asciiLowerCase (applyOps loadedExplore [ExploreOp.toggleRatingFilter,
      ExploreOp.setSearchQuery "a", ExploreOp.setViewMode "map", ExploreOp.clearFilters]) =
      [cafeCentral, libraryBar] :=
  ⟨by decide, ⟨rfl, rfl⟩,
   (toggleRatingFilter_binary asciiLowerCase (by decide) loadedExplore ⟨rfl, rfl⟩
      [ExploreOp.toggleRatingFilter, ExploreOp.setSearchQuery "a",
        ExploreOp.setViewMode "map"]).1,
   by decide!, by decide!⟩

end Thecon
